import Mathlib

/-!
Verification of the voice-interview system's session/state/turn-taking core.

The definitions below are a shallow embedding of the Python source:

* src/src/orchestrator/state_manager.py  — `InterviewState`, `InterviewSession`,
  `StateManager` (create/save/load/mark_completed/mark_failed/auto-save/cleanup);
* src/src/orchestrator/orchestrator.py   — `LocalInterviewOrchestrator.run`'s
  per-question exchange (`_speak` racing the interruption listener, `_listen`,
  transcript commit), and the phase loop's skip/complete logic;
* src/main.py                            — `_run_interview`'s KeyboardInterrupt
  handler (the transition to PAUSED).

Pydantic JSON serialization is embedded through a small `Json` inductive with
an explicit encoder/decoder pair for the session model; the on-disk state
directory is a list of named files whose content either parses as JSON or is
garbage (a file that `json.load` rejects).
-/

namespace VoiceInterview

/-- JSON values, the image of pydantic's `model_dump_json` / `json.load`.
Numbers are integers: every numeric field of the session model is integral
in this embedding (timestamps are modelled in whole time units). -/
inductive Json where
  | null : Json
  | bool (b : Bool) : Json
  | num (n : Int) : Json
  | str (s : String) : Json
  | arr (items : List Json) : Json
  | obj (fields : List (String × Json)) : Json

/-- Field lookup on a JSON object, the model of `data['field']` / `data.get('field')`. -/
def Json.getField (j : Json) (name : String) : Option Json :=
  match j with
  | .obj fields => fields.lookup name
  | _ => none

def Json.asStr : Json → Option String
  | .str s => some s
  | _ => none

def Json.asNat : Json → Option Nat
  | .num (.ofNat n) => some n
  | _ => none

def Json.asArr : Json → Option (List Json)
  | .arr xs => some xs
  | _ => none

def Json.asObj : Json → Option (List (String × Json))
  | .obj fs => some fs
  | _ => none

/-- An optional string field: pydantic dumps `None` as `null`. -/
def Json.asOptStr : Json → Option (Option String)
  | .null => some none
  | .str s => some (some s)
  | _ => none

def Json.asOptNat : Json → Option (Option Nat)
  | .null => some none
  | .num (.ofNat n) => some (some n)
  | _ => none

/-- `InterviewState` (state_manager.py): the five lifecycle states.
`use_enum_values` makes pydantic store the string value. -/
inductive InterviewState where
  | not_started
  | in_progress
  | paused
  | completed
  | failed
deriving DecidableEq

/-- The string value of each state, as stored in the JSON file. -/
def InterviewState.value : InterviewState → String
  | .not_started => "not_started"
  | .in_progress => "in_progress"
  | .paused => "paused"
  | .completed => "completed"
  | .failed => "failed"

/-- `QA.role` (schema.py): `Literal["human", "ai"]`. -/
inductive Role where
  | ai
  | human
deriving DecidableEq

def Role.value : Role → String
  | .ai => "ai"
  | .human => "human"

/-- `QA` (schema.py): one transcript turn. `ts` is the commit timestamp,
modelled in whole time units. -/
structure QA where
  role : Role
  text : String
  audio_path : Option String
  ts : Nat
deriving DecidableEq

/-- `JobInfo` (schema.py). `requirements: dict` is an opaque JSON object. -/
structure JobInfo where
  title : String
  company : String
  requirements : List (String × Json)

/-- `CandidateInfo` (schema.py). -/
structure CandidateInfo where
  name : String
  current_position : Option String
  years_experience : Option Nat
  key_skills : List String
deriving DecidableEq

/-- A `datetime.datetime` value. `strftime('%Y%m%d_%H%M%S')` ignores `micro`;
two instants in the same second differ only in `micro`. -/
structure DateTime where
  year : Nat
  month : Nat
  day : Nat
  hour : Nat
  minute : Nat
  second : Nat
  micro : Nat
deriving DecidableEq

/-- An entry of `InterviewSession.errors` (a dict with `type` and `details`). -/
structure ErrEntry where
  kind : String
  detail : String
deriving DecidableEq

/-- `InterviewSession` (state_manager.py): the complete resumable state of one
interview.  Field defaults mirror the pydantic `Field(default=...)` values. -/
structure InterviewSession where
  session_id : String
  state : InterviewState := .not_started
  job_info : JobInfo
  candidate_info : CandidateInfo
  current_phase : String := "warmup"
  current_question_index : Nat := 0
  completed_phases : List String := []
  transcript : List QA := []
  started_at : Option DateTime := none
  last_checkpoint : DateTime
  total_duration : Nat := 0
  transcript_path : Option String := none
  errors : List ErrEntry := []

/-- `config.interview.interview_phases` (config.py). -/
def interview_phases : List String :=
  ["warmup", "technical", "behavioral", "situational", "closing"]

/-! ## Serialization: the embedding of `model_dump_json` and pydantic validation -/

def encodeOpt (f : α → Json) : Option α → Json
  | none => .null
  | some a => f a

def encodeDateTime (d : DateTime) : Json :=
  .obj [("year", .num (Int.ofNat d.year)), ("month", .num (Int.ofNat d.month)),
        ("day", .num (Int.ofNat d.day)), ("hour", .num (Int.ofNat d.hour)),
        ("minute", .num (Int.ofNat d.minute)), ("second", .num (Int.ofNat d.second)),
        ("micro", .num (Int.ofNat d.micro))]

def decodeDateTime (j : Json) : Option DateTime := do
  let year ← (j.getField "year").bind Json.asNat
  let month ← (j.getField "month").bind Json.asNat
  let day ← (j.getField "day").bind Json.asNat
  let hour ← (j.getField "hour").bind Json.asNat
  let minute ← (j.getField "minute").bind Json.asNat
  let second ← (j.getField "second").bind Json.asNat
  let micro ← (j.getField "micro").bind Json.asNat
  pure ⟨year, month, day, hour, minute, second, micro⟩

def decodeState : Json → Option InterviewState
  | .str "not_started" => some .not_started
  | .str "in_progress" => some .in_progress
  | .str "paused" => some .paused
  | .str "completed" => some .completed
  | .str "failed" => some .failed
  | _ => none

def decodeRole : Json → Option Role
  | .str "ai" => some .ai
  | .str "human" => some .human
  | _ => none

def encodeQA (qa : QA) : Json :=
  .obj [("role", .str qa.role.value), ("text", .str qa.text),
        ("audio_path", encodeOpt Json.str qa.audio_path),
        ("ts", .num (Int.ofNat qa.ts))]

def decodeQA (j : Json) : Option QA := do
  let role ← (j.getField "role").bind decodeRole
  let text ← (j.getField "text").bind Json.asStr
  let audio ← (j.getField "audio_path").bind Json.asOptStr
  let ts ← (j.getField "ts").bind Json.asNat
  pure ⟨role, text, audio, ts⟩

def encodeJobInfo (job : JobInfo) : Json :=
  .obj [("title", .str job.title), ("company", .str job.company),
        ("requirements", .obj job.requirements)]

def decodeJobInfo (j : Json) : Option JobInfo := do
  let title ← (j.getField "title").bind Json.asStr
  let company ← (j.getField "company").bind Json.asStr
  let reqs ← (j.getField "requirements").bind Json.asObj
  pure ⟨title, company, reqs⟩

/-- Element-wise validation of a JSON array (pydantic's list field handling):
every element must decode, else the whole field fails. -/
def decodeListWith (g : Json → Option α) : List Json → Option (List α)
  | [] => some []
  | j :: rest =>
    match g j, decodeListWith g rest with
    | some a, some as => some (a :: as)
    | _, _ => none

def decodeStrList : Json → Option (List String)
  | .arr xs => decodeListWith Json.asStr xs
  | _ => none

def encodeCandidateInfo (c : CandidateInfo) : Json :=
  .obj [("name", .str c.name),
        ("current_position", encodeOpt Json.str c.current_position),
        ("years_experience", encodeOpt (fun n => .num (Int.ofNat n)) c.years_experience),
        ("key_skills", .arr (c.key_skills.map Json.str))]

def decodeCandidateInfo (j : Json) : Option CandidateInfo := do
  let name ← (j.getField "name").bind Json.asStr
  let pos ← (j.getField "current_position").bind Json.asOptStr
  let years ← (j.getField "years_experience").bind Json.asOptNat
  let skills ← (j.getField "key_skills").bind decodeStrList
  pure ⟨name, pos, years, skills⟩

def encodeErr (e : ErrEntry) : Json :=
  .obj [("type", .str e.kind), ("details", .str e.detail)]

def decodeErr (j : Json) : Option ErrEntry := do
  let kind ← (j.getField "type").bind Json.asStr
  let detail ← (j.getField "details").bind Json.asStr
  pure ⟨kind, detail⟩

def decodeOptDateTime : Json → Option (Option DateTime)
  | .null => some none
  | j => (decodeDateTime j).map some

/-- The serialized form written by `save_state` (`model_dump_json`). -/
def encodeSession (s : InterviewSession) : Json :=
  .obj [("session_id", .str s.session_id),
        ("state", .str s.state.value),
        ("job_info", encodeJobInfo s.job_info),
        ("candidate_info", encodeCandidateInfo s.candidate_info),
        ("current_phase", .str s.current_phase),
        ("current_question_index", .num (Int.ofNat s.current_question_index)),
        ("completed_phases", .arr (s.completed_phases.map Json.str)),
        ("transcript", .arr (s.transcript.map encodeQA)),
        ("started_at", encodeOpt encodeDateTime s.started_at),
        ("last_checkpoint", encodeDateTime s.last_checkpoint),
        ("total_duration", .num (Int.ofNat s.total_duration)),
        ("transcript_path", encodeOpt Json.str s.transcript_path),
        ("errors", .arr (s.errors.map encodeErr))]

/-- Validation of a loaded JSON document into `InterviewSession`
(`InterviewSession(**data)`); any missing or ill-typed field fails. -/
def decodeSession (j : Json) : Option InterviewSession := do
  let sid ← (j.getField "session_id").bind Json.asStr
  let st ← (j.getField "state").bind decodeState
  let job ← (j.getField "job_info").bind decodeJobInfo
  let cand ← (j.getField "candidate_info").bind decodeCandidateInfo
  let phase ← (j.getField "current_phase").bind Json.asStr
  let qidx ← (j.getField "current_question_index").bind Json.asNat
  let phases ← (j.getField "completed_phases").bind decodeStrList
  let transcriptJson ← (j.getField "transcript").bind Json.asArr
  let transcriptTurns ← decodeListWith decodeQA transcriptJson
  let startedAt ← (j.getField "started_at").bind decodeOptDateTime
  let checkpoint ← (j.getField "last_checkpoint").bind decodeDateTime
  let dur ← (j.getField "total_duration").bind Json.asNat
  let tpath ← (j.getField "transcript_path").bind Json.asOptStr
  let errsJson ← (j.getField "errors").bind Json.asArr
  let errs ← decodeListWith decodeErr errsJson
  pure ⟨sid, st, job, cand, phase, qidx, phases, transcriptTurns, startedAt,
        checkpoint, dur, tpath, errs⟩

/-! ## The persistence manager (`StateManager`) -/

/-- Content of one persisted session file: either text that `json.load` parses
(`json`), or text it rejects with an exception (`garbage`). -/
inductive FileData where
  | json (j : Json) : FileData
  | garbage : FileData

/-- The state directory, keyed by `session_id` (the source names the file
`"session_id.json"`, a bijection with the id). A write is a cons; `lookup`
finds the most recent write first. -/
abbrev Store := List (String × FileData)

/-- The in-memory `StateManager`: `current_session` plus whether the periodic
auto-save task (`_save_task`) is running. -/
structure Manager where
  current_session : Option InterviewSession
  saveTaskActive : Bool

/-- `StateManager.save_state`: no current session ⇒ return with no effect;
otherwise update `last_checkpoint`, serialize, and atomically replace the
canonical file (temp write + rename collapses to one store update). -/
def saveState (mgr : Manager) (store : Store) (now : DateTime) : Manager × Store :=
  match mgr.current_session with
  | none => (mgr, store)
  | some s =>
    let s' := { s with last_checkpoint := now }
    ({ mgr with current_session := some s' },
     (s'.session_id, .json (encodeSession s')) :: store)

/-- `StateManager.load_session`: missing file ⇒ `None`; a file that fails to
parse or validate ⇒ the exception is caught and `None` is returned; success
sets `current_session` and restarts the auto-save task. -/
def loadSession (mgr : Manager) (store : Store) (sessionId : String) :
    Manager × Option InterviewSession :=
  match store.lookup sessionId with
  | none => (mgr, none)
  | some .garbage => (mgr, none)
  | some (.json j) =>
    match decodeSession j with
    | none => (mgr, none)
    | some s =>
      ({ mgr with current_session := some s, saveTaskActive := true }, some s)

/-- `strftime` zero-padded numeric field. -/
def padNum (width n : Nat) : String :=
  let s := toString n
  String.mk (List.replicate (width - s.length) '0') ++ s

/-- `f"session_{datetime.now().strftime('%Y%m%d_%H%M%S')}"` — note the format
stops at whole seconds; `micro` does not appear. -/
def sessionIdFor (t : DateTime) : String :=
  "session_" ++ padNum 4 t.year ++ padNum 2 t.month ++ padNum 2 t.day ++ "_" ++
    padNum 2 t.hour ++ padNum 2 t.minute ++ padNum 2 t.second

/-- `StateManager.create_session`: build the fresh session (pydantic defaults
fill `state`, `current_phase`, `transcript`, `completed_phases`, …), do the
first save, and start the auto-save task. -/
def createSession (mgr : Manager) (store : Store) (job : JobInfo)
    (cand : CandidateInfo) (now : DateTime) : Manager × Store :=
  let s : InterviewSession := {
    session_id := sessionIdFor now
    job_info := job
    candidate_info := cand
    started_at := some now
    last_checkpoint := now }
  let saved := saveState { mgr with current_session := some s } store now
  ({ saved.1 with saveTaskActive := true }, saved.2)

/-- `StateManager.mark_completed`: set COMPLETED, save, stop auto-save. -/
def markCompleted (mgr : Manager) (store : Store) (now : DateTime) : Manager × Store :=
  match mgr.current_session with
  | none => (mgr, store)
  | some s =>
    let saved := saveState { mgr with current_session := some { s with state := .completed } } store now
    ({ saved.1 with saveTaskActive := false }, saved.2)

/-- `StateManager.mark_failed`: set FAILED, record the fatal error, save,
stop auto-save. -/
def markFailed (mgr : Manager) (store : Store) (error : String) (now : DateTime) :
    Manager × Store :=
  match mgr.current_session with
  | none => (mgr, store)
  | some s =>
    let s' := { s with state := .failed, errors := s.errors ++ [⟨"fatal", error⟩] }
    let saved := saveState { mgr with current_session := some s' } store now
    ({ saved.1 with saveTaskActive := false }, saved.2)

/-- `main.py` `_run_interview`'s `except KeyboardInterrupt` branch: set the
session PAUSED and save. It does not touch the auto-save task. -/
def pauseOnInterrupt (mgr : Manager) (store : Store) (now : DateTime) : Manager × Store :=
  match mgr.current_session with
  | none => (mgr, store)
  | some s =>
    saveState { mgr with current_session := some { s with state := .paused } } store now

/-- One firing of `_auto_save_loop`'s body: it runs only while the task is
alive, and saves only when there is a current session in IN_PROGRESS. -/
def autoSaveTick (mgr : Manager) (store : Store) (now : DateTime) : Manager × Store :=
  if mgr.saveTaskActive then
    match mgr.current_session with
    | some s =>
      if s.state = .in_progress then saveState mgr store now else (mgr, store)
    | none => (mgr, store)
  else (mgr, store)

/-! ## Retention cleanup (`cleanup_old_sessions`) -/

/-- One file of the state directory as `cleanup_old_sessions` sees it:
name, filesystem modification time (seconds), and content. -/
structure StoredFile where
  name : String
  mtime : Int
  data : FileData

/-- `data.get('state') in [COMPLETED.value, FAILED.value]` — garbage files
raise in `json.load`, the exception is caught, and they count as not
terminal (the file is kept). -/
def isTerminalFile : FileData → Bool
  | .garbage => false
  | .json j =>
    match j.getField "state" with
    | some (.str s) => s == InterviewState.completed.value || s == InterviewState.failed.value
    | _ => false

/-- Whether the stored status is IN_PROGRESS or PAUSED. -/
def isActiveFile : FileData → Bool
  | .garbage => false
  | .json j =>
    match j.getField "state" with
    | some (.str s) => s == InterviewState.in_progress.value || s == InterviewState.paused.value
    | _ => false

/-- `StateManager.cleanup_old_sessions(days)`: delete a file only when its
mtime is below `now - days·24·3600` and its stored status is terminal. -/
def cleanupOldSessions (dir : List StoredFile) (now : Int) (days : Int) : List StoredFile :=
  let cutoff := now - days * 24 * 3600
  dir.filter fun f => !(decide (f.mtime < cutoff) && isTerminalFile f.data)

/-! ## The turn-taking controller (`LocalInterviewOrchestrator`) -/

/-- Outcome of one collaborator call: a returned value or a raised exception. -/
inductive StepResult (α : Type) where
  | ok (val : α) : StepResult α
  | err (msg : String) : StepResult α

/-- The sentinel answer text returned by `_listen` when recording or
transcription raises (orchestrator.py line 227). -/
def detectionFailureText : String := "[Ses algılanamadı]"

/-- `_listen`'s validity threshold: a recording under 2000 bytes counts as
silence and yields the empty answer without invoking transcription. -/
def minValidWavBytes : Nat := 2000

/-- `LocalInterviewOrchestrator._listen`: record (`start_recording`), treat an
empty/short recording as an empty answer, transcribe otherwise; any raised
exception is caught and converted to the sentinel text. Totality of this
function is the model of "never propagates the error". -/
def listen (recording : StepResult (List Nat)) (transcription : StepResult String) : String :=
  match recording with
  | .err _ => detectionFailureText
  | .ok wav =>
    if wav.length < minValidWavBytes then ""
    else
      match transcription with
      | .ok t => t
      | .err _ => detectionFailureText

/-- `_speak` over the parsed sentence units, raced against the interruption
listener (orchestrator.py lines 267-290): `interruptAfter = some k` means the
interruption signal fires after `k` units have been spoken. If it fires
before the units run out, playback halts and the queued units are discarded
(`stop_playback` + task cancel); otherwise all units are spoken and the
listener is cancelled. Returns (completed?, units actually spoken). -/
def speakUnits (sentences : List String) (interruptAfter : Option Nat) :
    Bool × List String :=
  match interruptAfter with
  | none => (true, sentences)
  | some k =>
    if k < sentences.length then (false, sentences.take k) else (true, sentences)

/-- What one question/answer exchange of `run`'s inner loop produces. -/
structure ExchangeOutcome where
  transcript : List QA
  spokenUnits : List String
  interrupted : Bool
  answerCaptures : Nat

/-- One iteration of `run`'s question loop (orchestrator.py lines 260-304):
speak the generated question (racing the interruption listener), then capture
the answer exactly once, then append the AI turn and the HUMAN turn with one
shared commit timestamp `ts = time.time()`. The AI turn's text is the
`question` variable — the full generated text. `sentences` stands for
`parser.parse_sentences(question)`. -/
def runQuestionExchange (transcript : List QA) (question : String)
    (sentences : List String) (interruptAfter : Option Nat)
    (recording : StepResult (List Nat)) (transcription : StepResult String)
    (ts : Nat) : ExchangeOutcome :=
  let spoken := speakUnits sentences interruptAfter
  let answer := listen recording transcription
  { transcript := transcript ++ [⟨.ai, question, none, ts⟩, ⟨.human, answer, none, ts⟩]
    spokenUnits := spoken.2
    interrupted := !spoken.1
    answerCaptures := 1 }

/-- The transcript commit of one exchange (orchestrator.py lines 298-300). -/
def commitTurnPair (tr : List QA) (q a : String) (ts : Nat) : List QA :=
  tr ++ [⟨.ai, q, none, ts⟩, ⟨.human, a, none, ts⟩]

/-- N committed exchanges starting from the empty transcript. -/
def commitAll (exchanges : List (String × String × Nat)) : List QA :=
  exchanges.foldl (fun tr e => commitTurnPair tr e.1 e.2.1 e.2.2) []

/-- Step 6 of the exchange at the session level: append the pair to the
session's transcript, bump `current_question_index`, and trigger
`state_manager.save_state()`. -/
def commitExchangeAndSave (mgr : Manager) (store : Store) (q a : String)
    (ts : Nat) (qIdx : Nat) (now : DateTime) : Manager × Store :=
  match mgr.current_session with
  | none => (mgr, store)
  | some s =>
    let s' := { s with transcript := commitTurnPair s.transcript q a ts,
                       current_question_index := qIdx }
    saveState { mgr with current_session := some s' } store now

/-- The transcript shape the committed log must have: pairs of an AI turn
followed by a HUMAN turn sharing one timestamp — i.e. the turns alternate
AI, HUMAN, AI, HUMAN, … starting with AI. An odd-length log fails. -/
def wellPaired : List QA → Bool
  | [] => true
  | x :: y :: rest => x.role == .ai && y.role == .human && x.ts == y.ts && wellPaired rest
  | [_] => false

/-- The phase loop's treatment of one configured phase (orchestrator.py lines
247-251 and 306-308): a phase already in `completed_phases` is skipped
(`continue`); otherwise its questions run and the phase name is appended. -/
def skipOrComplete (completed : List String) (phase : String) : List String :=
  if phase ∈ completed then completed else completed ++ [phase]

/-- The whole phase loop's effect on `completed_phases`. -/
def processPhases (phases : List String) (completed : List String) : List String :=
  phases.foldl skipOrComplete completed

/-- Reconstruct the text of a run of sentence units, the inverse of splitting
on single spaces. -/
def unitJoin (units : List String) : String := String.intercalate " " units

/-- Decides "`t` is a strict prefix, by sentence units, of the question whose
units are `units`": `t` is the join of the first `k` units for some
`k < units.length`. -/
def properUnitJoinB (t : String) (units : List String) : Bool :=
  (List.range units.length).any fun k => t == unitJoin (units.take k)

/-! ## Auxiliary predicates and concrete sample data used by the theorems -/

/-- Field-wise equality of two sessions on every field except
`last_checkpoint` (the round-trip law's allowance). -/
def eqExceptCheckpoint (a b : InterviewSession) : Prop :=
  a.session_id = b.session_id ∧ a.state = b.state ∧ a.job_info = b.job_info ∧
  a.candidate_info = b.candidate_info ∧ a.current_phase = b.current_phase ∧
  a.current_question_index = b.current_question_index ∧
  a.completed_phases = b.completed_phases ∧ a.transcript = b.transcript ∧
  a.started_at = b.started_at ∧ a.total_duration = b.total_duration ∧
  a.transcript_path = b.transcript_path ∧ a.errors = b.errors

def sampleJob : JobInfo :=
  ⟨"Backend Engineer", "Acme", [("technical_skills", .arr [.str "Python"])]⟩

def sampleCandidate : CandidateInfo :=
  ⟨"Ada", some "Engineer", some 5, ["Python"]⟩

def sampleTime : DateTime := ⟨2024, 5, 1, 12, 0, 0, 0⟩

/-- A session mid-interview, as the runner holds it between questions. -/
def sampleSessionInProgress : InterviewSession :=
  { session_id := "session_20240501_120000"
    state := .in_progress
    job_info := sampleJob
    candidate_info := sampleCandidate
    current_phase := "technical"
    current_question_index := 1
    completed_phases := ["warmup"]
    transcript := [⟨.ai, "Tell me about yourself?", none, 100⟩,
                   ⟨.human, "I am a developer", none, 100⟩]
    started_at := some sampleTime
    last_checkpoint := sampleTime }

/-- A five-sentence question for the interruption-race scenario. -/
def q5 : String := "Bir. Iki. Uc. Dort. Bes."

def q5units : List String := ["Bir.", "Iki.", "Uc.", "Dort.", "Bes."]

/-- The same wall-clock second as `sampleTime`, half a second later. -/
def sampleTimeLater : DateTime := ⟨2024, 5, 1, 12, 0, 0, 500000⟩

/-- A persisted PAUSED session dated far in the past. -/
def ancientPausedFile : StoredFile :=
  ⟨"session_19700101_000000.json", -1000000000, .json (.obj [("state", .str "paused")])⟩

/-! ## Serialization round-trip lemmas -/

theorem decodeState_value (st : InterviewState) : decodeState (.str st.value) = some st := by
  cases st <;> rfl

theorem decodeRole_value (r : Role) : decodeRole (.str r.value) = some r := by
  cases r <;> rfl

theorem decodeDateTime_encode (d : DateTime) :
    decodeDateTime (encodeDateTime d) = some d := rfl

theorem decodeQA_encode (qa : QA) : decodeQA (encodeQA qa) = some qa := by
  cases qa with
  | mk role text audio ts => cases role <;> cases audio <;> rfl

theorem decodeErr_encode (e : ErrEntry) : decodeErr (encodeErr e) = some e := by
  cases e; rfl

theorem decodeJobInfo_encode (job : JobInfo) :
    decodeJobInfo (encodeJobInfo job) = some job := by
  cases job; rfl

theorem decodeListWith_map {α : Type} (f : α → Json) (g : Json → Option α)
    (h : ∀ a, g (f a) = some a) : ∀ xs : List α, decodeListWith g (xs.map f) = some xs := by
  intro xs
  induction xs with
  | nil => rfl
  | cons x rest ih => simp [decodeListWith, h, ih]

theorem decodeStrList_encode (xs : List String) :
    decodeStrList (.arr (xs.map Json.str)) = some xs := by
  simpa [decodeStrList] using decodeListWith_map Json.str Json.asStr (fun _ => rfl) xs

theorem decodeCandidateInfo_encode (c : CandidateInfo) :
    decodeCandidateInfo (encodeCandidateInfo c) = some c := by
  cases c with
  | mk name pos years skills =>
    cases pos <;> cases years <;>
      simp [decodeCandidateInfo, encodeCandidateInfo, Json.getField, List.lookup,
            Json.asStr, Json.asOptStr, Json.asOptNat, encodeOpt, decodeStrList_encode]

theorem decodeOptDateTime_encode (o : Option DateTime) :
    decodeOptDateTime (encodeOpt encodeDateTime o) = some o := by
  cases o <;> rfl

theorem asOptStr_encode (o : Option String) :
    Json.asOptStr (encodeOpt Json.str o) = some o := by
  cases o <;> rfl

theorem decodeSession_encode (s : InterviewSession) :
    decodeSession (encodeSession s) = some s := by
  have hq : decodeListWith decodeQA (s.transcript.map encodeQA) = some s.transcript :=
    decodeListWith_map _ _ decodeQA_encode _
  have he : decodeListWith decodeErr (s.errors.map encodeErr) = some s.errors :=
    decodeListWith_map _ _ decodeErr_encode _
  simp [decodeSession, encodeSession, Json.getField, List.lookup, Json.asStr,
        Json.asNat, Json.asArr, decodeState_value,
        decodeJobInfo_encode, decodeCandidateInfo_encode, decodeStrList_encode,
        decodeOptDateTime_encode, decodeDateTime_encode, asOptStr_encode, hq, he]

/-! ## Claim theorems -/

/-- C3: for every session, saving it and then loading the same session_id
yields a Session whose fields are all equal to the saved session's fields,
with the possible exception of `last_checkpoint` (which `save_state` sets to
the save time before serializing). -/
theorem save_then_load_roundtrip (mgr : Manager) (store : Store) (now : DateTime)
    (s : InterviewSession) (h : mgr.current_session = some s) :
    (loadSession (saveState mgr store now).1 (saveState mgr store now).2
        s.session_id).2 = some { s with last_checkpoint := now } ∧
    eqExceptCheckpoint { s with last_checkpoint := now } s := by
  have hsave : saveState mgr store now =
      ({ mgr with current_session := some { s with last_checkpoint := now } },
       (s.session_id, .json (encodeSession { s with last_checkpoint := now })) :: store) := by
    unfold saveState
    rw [h]
  constructor
  · rw [hsave]
    unfold loadSession
    simp [List.lookup, decodeSession_encode]
  · simp [eqExceptCheckpoint]

/-- Witness for C3 at a concrete mid-interview session. -/
theorem save_then_load_roundtrip_witness :
    (loadSession (saveState ⟨some sampleSessionInProgress, true⟩ [] sampleTimeLater).1
        (saveState ⟨some sampleSessionInProgress, true⟩ [] sampleTimeLater).2
        sampleSessionInProgress.session_id).2 =
      some { sampleSessionInProgress with last_checkpoint := sampleTimeLater } ∧
    eqExceptCheckpoint { sampleSessionInProgress with last_checkpoint := sampleTimeLater }
      sampleSessionInProgress :=
  save_then_load_roundtrip ⟨some sampleSessionInProgress, true⟩ [] sampleTimeLater
    sampleSessionInProgress rfl

/-- C5 counterexample: the claim requires a NotFound signal for a missing file
and a *distinct* CorruptState signal for a corrupt one. `load_session` returns
the same `None` in both cases: loading a corrupt file is observably identical
to loading a missing session, so no distinct signal exists. -/
theorem load_corrupt_matches_load_missing :
    (loadSession ⟨none, false⟩ [("session_A", .garbage)] "session_A").2 = none ∧
    (loadSession ⟨none, false⟩ [("session_A", .garbage)] "session_B").2 = none :=
  ⟨rfl, rfl⟩

/-- C5 amended: `load_session` returns the deserialized Session when the
canonical file exists and parses; it returns `None` both when the file is
absent and when deserialization fails — one indistinguishable failure signal
rather than distinct NotFound/CorruptState signals — and it never raises past
its boundary (every branch, including the caught-exception ones, returns). -/
theorem load_session_failure_semantics (mgr : Manager) (store : Store) (sessionId : String) :
    (store.lookup sessionId = none → (loadSession mgr store sessionId).2 = none) ∧
    (store.lookup sessionId = some .garbage → (loadSession mgr store sessionId).2 = none) ∧
    (∀ j, store.lookup sessionId = some (.json j) → decodeSession j = none →
        (loadSession mgr store sessionId).2 = none) ∧
    (∀ j s, store.lookup sessionId = some (.json j) → decodeSession j = some s →
        (loadSession mgr store sessionId).2 = some s) := by
  refine ⟨fun h => by simp only [loadSession, h], fun h => by simp only [loadSession, h],
          fun j h hd => by simp only [loadSession, h, hd],
          fun j s h hd => by simp only [loadSession, h, hd]⟩

/-- Witness for C5 on a store holding one well-formed serialized session. -/
theorem load_session_failure_semantics_witness :
    (loadSession ⟨none, false⟩
        [("session_20240501_120000", .json (encodeSession sampleSessionInProgress))]
        "session_20240501_120000").2 = some sampleSessionInProgress :=
  (load_session_failure_semantics ⟨none, false⟩
      [("session_20240501_120000", .json (encodeSession sampleSessionInProgress))]
      "session_20240501_120000").2.2.2 _ sampleSessionInProgress rfl
    (decodeSession_encode sampleSessionInProgress)

/-- C10: when the state manager has no current session, `save_state` returns
normally, writes nothing, and changes nothing. -/
theorem save_state_without_session_is_noop (mgr : Manager) (store : Store)
    (now : DateTime) (h : mgr.current_session = none) :
    saveState mgr store now = (mgr, store) := by
  unfold saveState
  rw [h]

/-- Witness for C10. -/
theorem save_state_without_session_is_noop_witness :
    saveState ⟨none, false⟩ [] sampleTime = (⟨none, false⟩, []) :=
  save_state_without_session_is_noop ⟨none, false⟩ [] sampleTime rfl

/-- A file whose stored status is IN_PROGRESS or PAUSED is not terminal: the
two string sets tested by `cleanup_old_sessions` and `get_recovery_info` are
disjoint. -/
theorem active_file_not_terminal (d : FileData) (h : isActiveFile d = true) :
    isTerminalFile d = false := by
  cases d with
  | garbage => rfl
  | json j =>
    rcases hf : j.getField "state" with - | jv
    · simp only [isActiveFile, hf] at h
      exact absurd h Bool.false_ne_true
    · cases jv <;> simp only [isActiveFile, hf] at h <;>
        first
          | exact absurd h Bool.false_ne_true
          | skip
      simp only [isTerminalFile, hf]
      simp only [Bool.or_eq_true, beq_iff_eq] at h
      rcases h with h | h <;> subst h <;> rfl

/-- C4: cleanup deletes a persisted session file only if its modification
time is older than the retention cutoff AND its stored status is COMPLETED or
FAILED; a file whose status is IN_PROGRESS or PAUSED survives cleanup no
matter how old it is. -/
theorem cleanup_deletes_only_old_terminal_files (dir : List StoredFile)
    (now days : Int) (f : StoredFile) (hmem : f ∈ dir) :
    (f ∉ cleanupOldSessions dir now days →
        f.mtime < now - days * 24 * 3600 ∧ isTerminalFile f.data = true) ∧
    (isActiveFile f.data = true → f ∈ cleanupOldSessions dir now days) := by
  unfold cleanupOldSessions
  constructor
  · intro hout
    by_contra hc
    apply hout
    rw [List.mem_filter]
    refine ⟨hmem, ?_⟩
    by_cases hm : f.mtime < now - days * 24 * 3600
    · by_cases ht : isTerminalFile f.data = true
      · exact absurd ⟨hm, ht⟩ hc
      · simp only [Bool.not_eq_true] at ht
        simp [ht]
    · simp [hm]
  · intro hact
    rw [List.mem_filter]
    exact ⟨hmem, by simp [active_file_not_terminal f.data hact]⟩

/-- Witness for C4: a PAUSED session file dated far in the past survives a
7-day cleanup run. -/
theorem cleanup_deletes_only_old_terminal_files_witness :
    ancientPausedFile ∈ cleanupOldSessions [ancientPausedFile] 1714564800 7 :=
  (cleanup_deletes_only_old_terminal_files [ancientPausedFile] 1714564800 7
      ancientPausedFile (List.mem_singleton.mpr rfl)).2 rfl

/-- `complete_phase` applied to an already-complete phase is the identity
(the phase loop's `continue`). -/
theorem skipOrComplete_of_mem {completed : List String} {phase : String}
    (h : phase ∈ completed) : skipOrComplete completed phase = completed := by
  unfold skipOrComplete
  exact if_pos h

/-- After handling a phase, the phase is recorded as complete. -/
theorem mem_skipOrComplete_self (completed : List String) (phase : String) :
    phase ∈ skipOrComplete completed phase := by
  unfold skipOrComplete
  split
  · assumption
  · simp

/-- Handling a phase preserves freedom from duplicates. -/
theorem skipOrComplete_nodup {completed : List String} (phase : String)
    (h : completed.Nodup) : (skipOrComplete completed phase).Nodup := by
  unfold skipOrComplete
  split
  · exact h
  · rename_i hmem
    exact h.append (List.nodup_singleton phase) (by simpa [List.disjoint_singleton] using hmem)

/-- C7: marking a phase complete is idempotent — the name is appended only if
absent, completing twice leaves exactly one occurrence, and folding the whole
phase loop over any configured phase list never creates duplicates in
`completed_phases`. -/
theorem complete_phase_idempotent_and_duplicate_free :
    (∀ (completed : List String) (phase : String),
        skipOrComplete (skipOrComplete completed phase) phase =
          skipOrComplete completed phase) ∧
    (∀ (completed : List String) (phase : String), phase ∉ completed →
        (skipOrComplete (skipOrComplete completed phase) phase).count phase = 1) ∧
    (∀ (phases completed : List String), completed.Nodup →
        (processPhases phases completed).Nodup) := by
  have hidem : ∀ (completed : List String) (phase : String),
      skipOrComplete (skipOrComplete completed phase) phase =
        skipOrComplete completed phase :=
    fun completed phase => skipOrComplete_of_mem (mem_skipOrComplete_self completed phase)
  refine ⟨hidem, fun completed phase h => ?_, fun phases => ?_⟩
  · rw [hidem]
    unfold skipOrComplete
    rw [if_neg h, List.count_append]
    rw [List.count_eq_zero.mpr h]
    simp
  · induction phases with
    | nil => exact fun completed h => h
    | cons p rest ih =>
      intro completed h
      exact ih (skipOrComplete completed p) (skipOrComplete_nodup p h)

/-- Witness for C7 at concrete phase lists. -/
theorem complete_phase_idempotent_and_duplicate_free_witness :
    (skipOrComplete (skipOrComplete ["warmup"] "technical") "technical" =
        skipOrComplete ["warmup"] "technical") ∧
    (skipOrComplete (skipOrComplete ["warmup"] "technical") "technical").count "technical" = 1 ∧
    (processPhases interview_phases []).Nodup :=
  ⟨complete_phase_idempotent_and_duplicate_free.1 ["warmup"] "technical",
   complete_phase_idempotent_and_duplicate_free.2.1 ["warmup"] "technical" (by decide),
   complete_phase_idempotent_and_duplicate_free.2.2 interview_phases [] (by decide)⟩

/-- C8 counterexample: two distinct creation instants inside the same
wall-clock second (they differ in microseconds) produce the *same*
session_id — `strftime('%Y%m%d_%H%M%S')` has only second precision, so two
sessions created in the same process do not always receive distinct ids. -/
theorem session_id_collides_within_one_second :
    sampleTime ≠ sampleTimeLater ∧
    sessionIdFor sampleTime = sessionIdFor sampleTimeLater ∧
    ((createSession ⟨none, false⟩ [] sampleJob sampleCandidate sampleTime).1.current_session.map
        (fun s => s.session_id) =
      (createSession ⟨none, false⟩ [] sampleJob sampleCandidate
          sampleTimeLater).1.current_session.map (fun s => s.session_id)) :=
  ⟨by decide, rfl, rfl⟩

/-- C8 amended: `create_session` derives the session_id from the creation
time at one-second precision — ids collide for creations within the same
second and are a function of the wall-clock second only — and it initializes
the new session with status NOT_STARTED, `current_phase` equal to the first
configured phase ("warmup"), and empty transcript and completed_phases. -/
theorem create_session_initialization (mgr : Manager) (store : Store)
    (job : JobInfo) (cand : CandidateInfo) (now : DateTime) :
    ((createSession mgr store job cand now).1.current_session =
        some { session_id := sessionIdFor now, state := .not_started, job_info := job,
               candidate_info := cand, current_phase := "warmup",
               current_question_index := 0, completed_phases := [], transcript := [],
               started_at := some now, last_checkpoint := now, total_duration := 0,
               transcript_path := none, errors := [] }) ∧
    interview_phases.head? = some "warmup" ∧
    (∀ u : DateTime, now.year = u.year → now.month = u.month → now.day = u.day →
        now.hour = u.hour → now.minute = u.minute → now.second = u.second →
        sessionIdFor now = sessionIdFor u) := by
  refine ⟨rfl, rfl, fun u h1 h2 h3 h4 h5 h6 => ?_⟩
  unfold sessionIdFor
  rw [h1, h2, h3, h4, h5, h6]

/-- Witness for C8's amended claim: same second, different microseconds. -/
theorem create_session_initialization_witness :
    sessionIdFor sampleTime = sessionIdFor ⟨2024, 5, 1, 12, 0, 0, 999999⟩ :=
  (create_session_initialization ⟨none, false⟩ [] sampleJob sampleCandidate
      sampleTime).2.2 ⟨2024, 5, 1, 12, 0, 0, 999999⟩ rfl rfl rfl rfl rfl rfl

/-- C9: if transcription raises on a valid (≥ 2000 byte) recording, `_listen`
returns the sentinel failure string instead of propagating; the HUMAN turn
committed for the exchange carries exactly the sentinel text; and the
exchange still commits its turn pair and performs its single answer capture,
so the run proceeds instead of aborting. -/
theorem stt_failure_yields_sentinel_and_run_continues
    (tr : List QA) (q : String) (sents : List String) (intr : Option Nat)
    (wav : List Nat) (e : String) (ts : Nat)
    (hwav : minValidWavBytes ≤ wav.length) :
    listen (.ok wav) (.err e) = detectionFailureText ∧
    (runQuestionExchange tr q sents intr (.ok wav) (.err e) ts).transcript =
      tr ++ [⟨.ai, q, none, ts⟩, ⟨.human, detectionFailureText, none, ts⟩] ∧
    (runQuestionExchange tr q sents intr (.ok wav) (.err e) ts).answerCaptures = 1 := by
  have hlisten : listen (.ok wav) (.err e) = detectionFailureText := by
    simp only [listen]
    rw [if_neg (Nat.not_lt.mpr hwav)]
  refine ⟨hlisten, ?_, rfl⟩
  unfold runQuestionExchange
  rw [hlisten]

/-- Witness for C9 with a 2000-byte recording. -/
theorem stt_failure_yields_sentinel_witness :
    listen (.ok (List.replicate 2000 0)) (.err "timeout") = detectionFailureText ∧
    (runQuestionExchange [] q5 q5units none (.ok (List.replicate 2000 0))
        (.err "timeout") 10).transcript =
      [] ++ [⟨.ai, q5, none, 10⟩, ⟨.human, detectionFailureText, none, 10⟩] ∧
    (runQuestionExchange [] q5 q5units none (.ok (List.replicate 2000 0))
        (.err "timeout") 10).answerCaptures = 1 :=
  stt_failure_yields_sentinel_and_run_continues [] q5 q5units none
    (List.replicate 2000 0) "timeout" 10 (by rw [List.length_replicate]; decide)

/-- C6 counterexample: the KeyboardInterrupt path in `main.py` moves the
session from IN_PROGRESS to PAUSED and saves, but leaves the periodic
auto-save task running (`saveTaskActive` stays `true`): the task is *not*
cancelled at this transition out of IN_PROGRESS, contrary to the claim that
it is cancelled at every such transition. -/
theorem pause_transition_leaves_autosave_running :
    sampleSessionInProgress.state = .in_progress ∧
    ((pauseOnInterrupt ⟨some sampleSessionInProgress, true⟩ [] sampleTimeLater).1.current_session.map
        (fun s => s.state) = some .paused) ∧
    (pauseOnInterrupt ⟨some sampleSessionInProgress, true⟩ [] sampleTimeLater).1.saveTaskActive = true :=
  ⟨rfl, rfl, rfl⟩

/-- C6 amended: the auto-save task is cancelled at the COMPLETED and FAILED
transitions (`mark_completed` / `mark_failed`), but not at the PAUSED
transition; nevertheless `_auto_save_loop`'s guard saves only while the
current session's status is IN_PROGRESS, so after the session leaves
IN_PROGRESS no auto-save ever writes — a tick is a complete no-op. -/
theorem autosave_stops_saving_outside_in_progress :
    (∀ (mgr : Manager) (store : Store) (now : DateTime) (s : InterviewSession),
        mgr.current_session = some s →
        (markCompleted mgr store now).1.saveTaskActive = false) ∧
    (∀ (mgr : Manager) (store : Store) (error : String) (now : DateTime)
        (s : InterviewSession), mgr.current_session = some s →
        (markFailed mgr store error now).1.saveTaskActive = false) ∧
    (∀ (mgr : Manager) (store : Store) (now : DateTime),
        (∀ s, mgr.current_session = some s → s.state ≠ .in_progress) →
        autoSaveTick mgr store now = (mgr, store)) ∧
    (∀ (mgr : Manager) (store : Store) (now : DateTime),
        mgr.saveTaskActive = false → autoSaveTick mgr store now = (mgr, store)) := by
  refine ⟨fun mgr store now s h => by simp only [markCompleted, h, saveState],
          fun mgr store error now s h => by simp only [markFailed, h, saveState],
          fun mgr store now h => ?_, fun mgr store now h => by simp [autoSaveTick, h]⟩
  unfold autoSaveTick
  rcases hcur : mgr.current_session with - | s
  · simp [hcur]
  · have hs : s.state ≠ .in_progress := h s hcur
    simp [hcur, hs]

/-- Witness for C6's amended claim at concrete manager states. -/
theorem autosave_stops_saving_outside_in_progress_witness :
    (markCompleted ⟨some sampleSessionInProgress, true⟩ [] sampleTime).1.saveTaskActive = false ∧
    (markFailed ⟨some sampleSessionInProgress, true⟩ [] "boom" sampleTime).1.saveTaskActive = false ∧
    autoSaveTick ⟨some { sampleSessionInProgress with state := .paused }, true⟩ [] sampleTime =
      (⟨some { sampleSessionInProgress with state := .paused }, true⟩, []) ∧
    autoSaveTick ⟨some sampleSessionInProgress, false⟩ [] sampleTime =
      (⟨some sampleSessionInProgress, false⟩, []) :=
  ⟨autosave_stops_saving_outside_in_progress.1 _ [] sampleTime sampleSessionInProgress rfl,
   autosave_stops_saving_outside_in_progress.2.1 _ [] "boom" sampleTime
     sampleSessionInProgress rfl,
   autosave_stops_saving_outside_in_progress.2.2.1 _ [] sampleTime
     (fun s hs => by cases hs; decide),
   autosave_stops_saving_outside_in_progress.2.2.2 _ [] sampleTime rfl⟩

/-- C1 counterexample: a five-unit question interrupted after one spoken unit.
The spoken content is the strict one-unit prefix, but the AI turn committed to
the transcript carries the *full* generated question text (`question` is
appended verbatim at commit time), which is not a strict sentence-unit prefix
of itself — refuting the claim that the committed turn carries the partial
spoken text. The single answer capture does follow as claimed. -/
theorem interrupted_turn_commits_full_question_text :
    unitJoin q5units = q5 ∧
    (runQuestionExchange [] q5 q5units (some 1) (.ok []) (.ok "Tamam.") 10).interrupted = true ∧
    (runQuestionExchange [] q5 q5units (some 1) (.ok []) (.ok "Tamam.") 10).spokenUnits =
      ["Bir."] ∧
    ((runQuestionExchange [] q5 q5units (some 1) (.ok []) (.ok "Tamam.") 10).transcript.map
        (fun t => t.text) = [q5, ""]) ∧
    properUnitJoinB q5 q5units = false ∧
    (runQuestionExchange [] q5 q5units (some 1) (.ok []) (.ok "Tamam.") 10).answerCaptures = 1 := by
  refine ⟨by decide, rfl, rfl, rfl, by decide, rfl⟩

/-- C1 amended: when the interruption signal fires after `k` spoken units with
`k` strictly below the unit count, playback halts with the strict prefix
`sents.take k` spoken, but the AI turn committed to the transcript carries the
full generated question text (not the partial spoken text); exactly one answer
capture follows before the pair is committed. -/
theorem interruption_race_commits_full_question
    (tr : List QA) (q : String) (sents : List String) (k : Nat)
    (recording : StepResult (List Nat)) (transcription : StepResult String)
    (ts : Nat) (hk : k < sents.length) :
    (runQuestionExchange tr q sents (some k) recording transcription ts).interrupted = true ∧
    (runQuestionExchange tr q sents (some k) recording transcription ts).spokenUnits =
      sents.take k ∧
    (runQuestionExchange tr q sents (some k) recording transcription ts).spokenUnits.length <
      sents.length ∧
    (runQuestionExchange tr q sents (some k) recording transcription ts).transcript =
      tr ++ [⟨.ai, q, none, ts⟩, ⟨.human, listen recording transcription, none, ts⟩] ∧
    (runQuestionExchange tr q sents (some k) recording transcription ts).answerCaptures = 1 := by
  have hspeak : speakUnits sents (some k) = (false, sents.take k) := by
    simp only [speakUnits]
    rw [if_pos hk]
  refine ⟨?_, ?_, ?_, rfl, rfl⟩
  · simp only [runQuestionExchange, hspeak]
    rfl
  · simp only [runQuestionExchange, hspeak]
  · simp only [runQuestionExchange, hspeak]
    rw [List.length_take]
    exact lt_of_le_of_lt (Nat.min_le_left k sents.length) hk

/-- Witness for C1's amended claim: interruption after one of five units. -/
theorem interruption_race_commits_full_question_witness :
    (runQuestionExchange [] q5 q5units (some 1) (.ok []) (.ok "Tamam.") 10).interrupted = true ∧
    (runQuestionExchange [] q5 q5units (some 1) (.ok []) (.ok "Tamam.") 10).spokenUnits =
      q5units.take 1 ∧
    (runQuestionExchange [] q5 q5units (some 1) (.ok []) (.ok "Tamam.") 10).spokenUnits.length <
      q5units.length ∧
    (runQuestionExchange [] q5 q5units (some 1) (.ok []) (.ok "Tamam.") 10).transcript =
      [] ++ [⟨.ai, q5, none, 10⟩, ⟨.human, listen (.ok []) (.ok "Tamam."), none, 10⟩] ∧
    (runQuestionExchange [] q5 q5units (some 1) (.ok []) (.ok "Tamam.") 10).answerCaptures = 1 :=
  interruption_race_commits_full_question [] q5 q5units 1 (.ok []) (.ok "Tamam.") 10
    (by decide)

/-- Appending one AI/HUMAN pair with a shared timestamp preserves the
alternating paired shape of the transcript. -/
theorem wellPaired_append_pair (x y : QA) (hx : x.role = .ai) (hy : y.role = .human)
    (ht : x.ts = y.ts) :
    ∀ tr : List QA, wellPaired tr = true → wellPaired (tr ++ [x, y]) = true
  | [], _ => by simp [wellPaired, hx, hy, ht]
  | [a], h => by simp [wellPaired] at h
  | a :: b :: rest, h => by
    simp only [wellPaired, Bool.and_eq_true] at h
    obtain ⟨⟨⟨h1, h2⟩, h3⟩, h4⟩ := h
    simp only [List.cons_append, wellPaired, Bool.and_eq_true]
    exact ⟨⟨⟨h1, h2⟩, h3⟩, wellPaired_append_pair x y hx hy ht rest h4⟩

/-- Each committed exchange grows the transcript by exactly two turns. -/
theorem commit_fold_length :
    ∀ (exchanges : List (String × String × Nat)) (tr : List QA),
      (exchanges.foldl (fun t e => commitTurnPair t e.1 e.2.1 e.2.2) tr).length =
        tr.length + 2 * exchanges.length
  | [], tr => by simp
  | e :: rest, tr => by
    simp only [List.foldl_cons]
    rw [commit_fold_length rest]
    simp only [commitTurnPair, List.length_append, List.length_cons, List.length_nil,
               List.length]
    omega

/-- Folding committed exchanges preserves the paired shape. -/
theorem commit_fold_wellPaired :
    ∀ (exchanges : List (String × String × Nat)) (tr : List QA),
      wellPaired tr = true →
      wellPaired (exchanges.foldl (fun t e => commitTurnPair t e.1 e.2.1 e.2.2) tr) = true
  | [], _, h => h
  | e :: rest, tr, h => by
    simp only [List.foldl_cons]
    exact commit_fold_wellPaired rest _
      (wellPaired_append_pair ⟨.ai, e.1, none, e.2.2⟩ ⟨.human, e.2.1, none, e.2.2⟩
        rfl rfl rfl tr h)

/-- C2: every committed exchange appends exactly one AI turn immediately
followed by one HUMAN turn, both stamped with the same commit timestamp, and
then triggers a session save (the store gains the newly serialized session);
after N committed exchanges from an empty transcript the log has length 2N
and its turns alternate AI, HUMAN, AI, HUMAN, … starting with AI
(`wellPaired`). -/
theorem commit_appends_alternating_pairs_and_saves :
    (∀ exchanges : List (String × String × Nat),
        (commitAll exchanges).length = 2 * exchanges.length ∧
        wellPaired (commitAll exchanges) = true) ∧
    (∀ (mgr : Manager) (store : Store) (s : InterviewSession) (q a : String)
        (ts qIdx : Nat) (now : DateTime), mgr.current_session = some s →
        (commitExchangeAndSave mgr store q a ts qIdx now).1.current_session =
          some { s with
                 transcript := s.transcript ++ [⟨.ai, q, none, ts⟩, ⟨.human, a, none, ts⟩],
                 current_question_index := qIdx, last_checkpoint := now } ∧
        (commitExchangeAndSave mgr store q a ts qIdx now).2 =
          (s.session_id,
           .json (encodeSession { s with
             transcript := s.transcript ++ [⟨.ai, q, none, ts⟩, ⟨.human, a, none, ts⟩],
             current_question_index := qIdx, last_checkpoint := now })) :: store) := by
  constructor
  · intro exchanges
    constructor
    · unfold commitAll
      rw [commit_fold_length]
      simp
    · exact commit_fold_wellPaired exchanges [] rfl
  · intro mgr store s q a ts qIdx now h
    constructor
    · simp only [commitExchangeAndSave, h, saveState, commitTurnPair]
    · simp only [commitExchangeAndSave, h, saveState, commitTurnPair]

/-- Witness for C2 at two concrete exchanges and one session-level commit. -/
theorem commit_appends_alternating_pairs_witness :
    (commitAll [("Q1", "A1", 5), ("Q2", "A2", 7)]).length = 4 ∧
    wellPaired (commitAll [("Q1", "A1", 5), ("Q2", "A2", 7)]) = true ∧
    (commitExchangeAndSave ⟨some sampleSessionInProgress, true⟩ [] "Q3" "A3" 9 2
        sampleTime).1.current_session =
      some { sampleSessionInProgress with
             transcript := sampleSessionInProgress.transcript ++
               [⟨.ai, "Q3", none, 9⟩, ⟨.human, "A3", none, 9⟩],
             current_question_index := 2, last_checkpoint := sampleTime } :=
  ⟨(commit_appends_alternating_pairs_and_saves.1 [("Q1", "A1", 5), ("Q2", "A2", 7)]).1,
   (commit_appends_alternating_pairs_and_saves.1 [("Q1", "A1", 5), ("Q2", "A2", 7)]).2,
   (commit_appends_alternating_pairs_and_saves.2 ⟨some sampleSessionInProgress, true⟩ []
      sampleSessionInProgress "Q3" "A3" 9 2 sampleTime rfl).1⟩

end VoiceInterview
